import Mathlib

/-!
Shallow embedding of the spatial-data access API (two front ends, `app` =
resource-oriented REST surface, `gql` = graph-query surface) over a shared
relational store.  Pure Python helpers become Lean functions; the database
session becomes explicit state passing on a `DB` value; Python exceptions
(`HTTPException`) become `Except Nat` with the HTTP status code; functions
that signal failure by returning `None` / `[]` become `Option` / plain
lists.  The external PostGIS engine's geometry operators, declared out of
scope by the specification, are modelled where a claim needs their
documented semantics.
-/

namespace Spatial

/-- A JSON-like value as Python sees it after `json` parsing or shapely
`mapping`: numbers, Python lists, and Python tuples.  The `tup`/`lst`
distinction matters because shapely's `mapping` emits coordinate tuples and
the helper `tuple_to_list` is supposed to turn them back into lists. -/
inductive JVal where
  | num (q : ℚ)
  | lst (xs : List JVal)
  | tup (xs : List JVal)

mutual

/-- Decidable equality for JSON values (structural, as Python `==` on the
number/list/tuple fragment, except that Python list == tuple is always
False, which is exactly what `lst ≠ tup` captures). -/
def decEqJVal : (a b : JVal) → Decidable (a = b)
  | JVal.num a, JVal.num b =>
      if h : a = b then isTrue (by rw [h]) else isFalse (fun hh => h (by cases hh; rfl))
  | JVal.lst a, JVal.lst b =>
      match decEqJValList a b with
      | isTrue h => isTrue (by rw [h])
      | isFalse h => isFalse (fun hh => h (by cases hh; rfl))
  | JVal.tup a, JVal.tup b =>
      match decEqJValList a b with
      | isTrue h => isTrue (by rw [h])
      | isFalse h => isFalse (fun hh => h (by cases hh; rfl))
  | JVal.num _, JVal.lst _ => isFalse (fun h => JVal.noConfusion h)
  | JVal.num _, JVal.tup _ => isFalse (fun h => JVal.noConfusion h)
  | JVal.lst _, JVal.num _ => isFalse (fun h => JVal.noConfusion h)
  | JVal.lst _, JVal.tup _ => isFalse (fun h => JVal.noConfusion h)
  | JVal.tup _, JVal.num _ => isFalse (fun h => JVal.noConfusion h)
  | JVal.tup _, JVal.lst _ => isFalse (fun h => JVal.noConfusion h)

/-- Decidable equality for lists of JSON values. -/
def decEqJValList : (a b : List JVal) → Decidable (a = b)
  | [], [] => isTrue rfl
  | [], _ :: _ => isFalse (fun h => List.noConfusion h)
  | _ :: _, [] => isFalse (fun h => List.noConfusion h)
  | x :: xs, y :: ys =>
      match decEqJVal x y, decEqJValList xs ys with
      | isTrue h1, isTrue h2 => isTrue (by rw [h1, h2])
      | isFalse h1, _ => isFalse (fun h => h1 (by cases h; rfl))
      | isTrue _, isFalse h2 => isFalse (fun h => h2 (by cases h; rfl))

end

instance : DecidableEq JVal := decEqJVal

/-- A GeoJSON-shaped object: a `type` member and a `coordinates` member
(the shapes accepted by the Geometry Codec). -/
structure GeoObj where
  typ : String
  coordinates : JVal
deriving DecidableEq

/-- Stored geometry value (shapely geometry wrapped by geoalchemy2, always
SRID 4326): a point's coordinate list or a polygon's list of rings. -/
inductive Geom where
  | point (coords : List ℚ)
  | polygon (rings : List (List (List ℚ)))
deriving DecidableEq

/-- Read a JSON value as a flat list of numbers. -/
def jnums : JVal → Option (List ℚ)
  | JVal.lst xs => xs.mapM (fun v => match v with | JVal.num q => some q | _ => none)
  | _ => none

/-- A GeoJSON position: a list of 2 or 3 numbers (shapely rejects other
arities when constructing a point or ring vertex). -/
def jposition (v : JVal) : Option (List ℚ) := do
  let ns ← jnums v
  if ns.length = 2 ∨ ns.length = 3 then some ns else none

/-- Shapely auto-closes a linear ring whose first and last vertices differ
by appending the first vertex. -/
def closeRing (r : List (List ℚ)) : List (List ℚ) :=
  match r.head?, r.getLast? with
  | some h, some l => if h = l then r else r ++ [h]
  | _, _ => r

/-- Read a JSON value as a polygon ring: a list of positions, auto-closed,
with at least 4 vertices after closing (shapely's `LinearRing` minimum). -/
def jring (v : JVal) : Option (List (List ℚ)) :=
  match v with
  | JVal.lst xs => do
      let ps ← xs.mapM jposition
      let c := closeRing ps
      if 4 ≤ c.length then some c else none
  | _ => none

/-- `shape(geojson)` followed by `from_shape(..., srid=4326)`: builds the
stored geometry from a GeoJSON object, or fails (the Python code catches
any exception from this construction). -/
def shapeDecode (g : GeoObj) : Option Geom :=
  if g.typ = "Point" then
    (jposition g.coordinates).map Geom.point
  else if g.typ = "Polygon" then
    match g.coordinates with
    | JVal.lst rs => (rs.mapM jring).map Geom.polygon
    | _ => none
  else
    none

/-- Shapely `mapping(to_shape(geom))`: serializes a stored geometry back to
a GeoJSON object whose coordinate arrays are Python tuples at every level. -/
def mappingGeom : Geom → GeoObj
  | Geom.point cs => ⟨"Point", JVal.tup (cs.map JVal.num)⟩
  | Geom.polygon rs =>
      ⟨"Polygon",
       JVal.tup (rs.map (fun r => JVal.tup (r.map (fun p => JVal.tup (p.map JVal.num)))))⟩

mutual

/-- The repository's `tuple_to_list` helper, translated branch for branch:
a tuple becomes `list(obj)` — a SHALLOW copy whose elements are returned
as-is — while a list is rebuilt with the helper mapped over its elements. -/
def tuple_to_list : JVal → JVal
  | JVal.num q => JVal.num q
  | JVal.tup xs => JVal.lst xs
  | JVal.lst xs => JVal.lst (tupleToListAll xs)

/-- `[tuple_to_list(i) for i in obj]`. -/
def tupleToListAll : List JVal → List JVal
  | [] => []
  | x :: xs => tuple_to_list x :: tupleToListAll xs

end

/-- The encode direction used by `point_to_schema` / `polygon_to_schema` /
`point_to_dict` / `polygon_to_dict`: `mapping` then `tuple_to_list` (the
dict branch of `tuple_to_list` leaves the `type` string alone and applies
the helper to the `coordinates` value). -/
def encodeGeom (g : Geom) : GeoObj :=
  let m := mappingGeom g
  ⟨m.typ, tuple_to_list m.coordinates⟩

/-! ## Data model (`models.py`): three tables plus the session state -/

/-- Row of the `users` table. -/
structure User where
  id : Nat
  username : String
  hashed_password : String
deriving DecidableEq

/-- Row of the `points` table (`location` is a SRID-4326 GEOMETRY column,
not GEOGRAPHY). -/
structure SpatialPoint where
  id : Nat
  name : String
  description : Option String
  location : Geom
deriving DecidableEq

/-- Row of the `polygons` table (`area` is a SRID-4326 GEOMETRY column). -/
structure SpatialPolygon where
  id : Nat
  name : String
  description : Option String
  area : Geom
deriving DecidableEq

/-- The persistent store: the three tables plus the generators behind the
auto-increment primary keys. -/
structure DB where
  users : List User
  points : List SpatialPoint
  polygons : List SpatialPolygon
  nextUserId : Nat
  nextPointId : Nat
  nextPolygonId : Nat
deriving DecidableEq

/-! ## External spatial engine

The specification places the database's geometry operators out of scope
("assumed to provide exact-predicate geometry operations").  They are
modelled here with their documented PostGIS semantics on GEOMETRY values:
all three operate planarly in the units of the SRID coordinates. -/

/-- Consecutive-vertex edges of a ring. -/
def ringEdges (r : List (List ℚ)) : List (List ℚ × List ℚ) := r.zip r.tail

/-- Whether a horizontal ray from `(px, py)` to the right crosses the edge
from `(x1, y1)` to `(x2, y2)` (half-open in `y` so shared vertices count
once). -/
def edgeCrosses (px py : ℚ) (e : List ℚ × List ℚ) : Bool :=
  match e with
  | (x1 :: y1 :: _, x2 :: y2 :: _) =>
      decide (((y1 ≤ py ∧ py < y2) ∨ (y2 ≤ py ∧ py < y1)) ∧
        px < x1 + (py - y1) * (x2 - x1) / (y2 - y1))
  | _ => false

/-- Even-odd test: the parity of ray crossings of one ring. -/
def pointInRing (px py : ℚ) (r : List (List ℚ)) : Bool :=
  (ringEdges r).foldl (fun acc e => xor acc (edgeCrosses px py e)) false

/-- Modelled from the spec: the engine's exact topological within
predicate (`ST_Within`) between a stored point and a polygon, realized as
even-odd crossing parity over all rings (holes flip the parity). -/
def ST_Within (g poly : Geom) : Bool :=
  match g, poly with
  | Geom.point (px :: py :: _), Geom.polygon rings =>
      rings.foldl (fun acc r => xor acc (pointInRing px py r)) false
  | _, _ => false

/-- Modelled from the spec: the engine's `ST_Contains` for a polygon and a
point (converse of within on this fragment). -/
def ST_Contains (poly g : Geom) : Bool := ST_Within g poly

/-- PostGIS `ST_DWithin` on two GEOMETRY points: Euclidean distance in the
units of the coordinates (for SRID 4326 these are planar degrees, NOT
meters) is at most `r`.  Stated squared to stay in ℚ; a negative radius
matches nothing. -/
def ST_DWithin (g1 g2 : Geom) (r : ℚ) : Bool :=
  match g1, g2 with
  | Geom.point (x1 :: y1 :: _), Geom.point (x2 :: y2 :: _) =>
      decide (0 ≤ r ∧ (x1 - x2) ^ 2 + (y1 - y2) ^ 2 ≤ r ^ 2)
  | _, _ => false

/-! ## Process environment and token service -/

/-- The process environment as a finite key-value map; `os.getenv` with no
default. -/
def getenv (env : List (String × String)) (k : String) : Option String :=
  (env.find? (fun p => p.1 == k)).map (fun p => p.2)

/-- `SECRET_KEY = os.getenv("SECRET_KEY", "supersecretkey")`, translated
exactly: the second argument of `os.getenv` is the fallback returned when
the variable is absent. -/
def SECRET_KEY (env : List (String × String)) : String :=
  (getenv env "SECRET_KEY").getD "supersecretkey"

/-- `ACCESS_TOKEN_EXPIRE_MINUTES = 60`. -/
def ACCESS_TOKEN_EXPIRE_MINUTES : Int := 60

/-- A signed JWT as the external `jose` library presents it: the `sub`
claim, the `exp` claim (seconds), and the key it was signed with (standing
in for the HS256 signature, which binds the payload to the key). -/
structure Jwt where
  sub : Option String
  exp : Int
  key : String
deriving DecidableEq

/-- `create_access_token({"sub": sub})`: signs `sub` with the process
secret, expiring `ACCESS_TOKEN_EXPIRE_MINUTES` after `now`. -/
def create_access_token (secret : String) (now : Int) (sub : String) : Jwt :=
  ⟨some sub, now + ACCESS_TOKEN_EXPIRE_MINUTES * 60, secret⟩

/-- `jwt.decode(token, secret, algorithms=[ALGORITHM])`: yields the payload
(here its `sub` claim) when the signature matches and the token has not
expired; `none` models the `JWTError` raised otherwise.  An expired token
and a badly signed token are indistinguishable in the result. -/
def jwt_decode (t : Jwt) (secret : String) (now : Int) : Option (Option String) :=
  if t.key = secret ∧ now < t.exp then some t.sub else none

/-- Modelled from the spec: the external bcrypt-class password hash
(`pwd_context.hash`); one-way capability with the fixed contract that
verification recognizes exactly the hashed password. -/
def get_password_hash (password : String) : String :=
  "bcrypt-model:" ++ password

/-- `pwd_context.verify(plain_password, hashed_password)`. -/
def verify_password (plain hashed : String) : Bool :=
  get_password_hash plain == hashed

/-- Response schema `PointOut`: the stored fields with the geometry
re-encoded to GeoJSON. -/
structure PointOut where
  id : Nat
  name : String
  description : Option String
  location : GeoObj
deriving DecidableEq

/-- Response schema `PolygonOut`. -/
structure PolygonOut where
  id : Nat
  name : String
  description : Option String
  area : GeoObj
deriving DecidableEq

/-! ## Resource-oriented surface (`app/crud.py` + `app/main.py`)

Failures raised as `HTTPException(status_code=c)` become `Except.error c`;
the session is threaded explicitly, and a function's returned `DB` is the
committed state after the call (rollback = returning the input state). -/

namespace app

/-- `get_user_by_username`. -/
def get_user_by_username (db : DB) (username : String) : Option User :=
  db.users.find? (fun u => u.username == username)

/-- `create_user`: inserts the row; the UNIQUE constraint on `username`
raises `IntegrityError` on a duplicate, which is rolled back and mapped to
HTTP 400. -/
def create_user (db : DB) (username password : String) : Except Nat User × DB :=
  if db.users.any (fun u => u.username == username) then
    (Except.error 400, db)
  else
    let u : User := ⟨db.nextUserId, username, get_password_hash password⟩
    (Except.ok u, { db with users := db.users ++ [u], nextUserId := db.nextUserId + 1 })

/-- `authenticate_user`. -/
def authenticate_user (db : DB) (username password : String) : Option User :=
  match get_user_by_username db username with
  | none => none
  | some u => if verify_password password u.hashed_password then some u else none

/-- `create_point`: decode the GeoJSON first (failure → HTTP 422 before any
write), then insert and commit. -/
def create_point (db : DB) (name : String) (descr : Option String) (location : GeoObj) :
    Except Nat SpatialPoint × DB :=
  match shapeDecode location with
  | none => (Except.error 422, db)
  | some geom =>
      let p : SpatialPoint := ⟨db.nextPointId, name, descr, geom⟩
      (Except.ok p, { db with points := db.points ++ [p], nextPointId := db.nextPointId + 1 })

/-- `get_point`. -/
def get_point (db : DB) (point_id : Nat) : Option SpatialPoint :=
  db.points.find? (fun p => p.id == point_id)

/-- `get_points(db, skip, limit)`: `offset(skip).limit(limit)` — `limit` is
applied exactly as supplied, with no further cap. -/
def get_points (db : DB) (skip limit : Nat) : List SpatialPoint :=
  (db.points.drop skip).take limit

/-- `update_point`: missing id yields `None` (no write); with the record
present, the field assignments plus geometry decode and commit run inside
one try block, and any failure rolls the transaction back (net effect: the
stored row is unchanged) and raises HTTP 422. -/
def update_point (db : DB) (point_id : Nat) (name : String) (descr : Option String)
    (location : GeoObj) : Except Nat (Option SpatialPoint) × DB :=
  match get_point db point_id with
  | none => (Except.ok none, db)
  | some _ =>
      match shapeDecode location with
      | none => (Except.error 422, db)
      | some geom =>
          let p : SpatialPoint := ⟨point_id, name, descr, geom⟩
          (Except.ok (some p),
           { db with points := db.points.map (fun q => if q.id == point_id then p else q) })

/-- `delete_point`. -/
def delete_point (db : DB) (point_id : Nat) : Option SpatialPoint × DB :=
  match get_point db point_id with
  | none => (none, db)
  | some p => (some p, { db with points := db.points.filter (fun q => q.id != point_id) })

/-- `create_polygon`. -/
def create_polygon (db : DB) (name : String) (descr : Option String) (area : GeoObj) :
    Except Nat SpatialPolygon × DB :=
  match shapeDecode area with
  | none => (Except.error 422, db)
  | some geom =>
      let p : SpatialPolygon := ⟨db.nextPolygonId, name, descr, geom⟩
      (Except.ok p,
       { db with polygons := db.polygons ++ [p], nextPolygonId := db.nextPolygonId + 1 })

/-- `get_polygon`. -/
def get_polygon (db : DB) (polygon_id : Nat) : Option SpatialPolygon :=
  db.polygons.find? (fun p => p.id == polygon_id)

/-- `get_polygons(db, skip, limit)`. -/
def get_polygons (db : DB) (skip limit : Nat) : List SpatialPolygon :=
  (db.polygons.drop skip).take limit

/-- `update_polygon`. -/
def update_polygon (db : DB) (polygon_id : Nat) (name : String) (descr : Option String)
    (area : GeoObj) : Except Nat (Option SpatialPolygon) × DB :=
  match get_polygon db polygon_id with
  | none => (Except.ok none, db)
  | some _ =>
      match shapeDecode area with
      | none => (Except.error 422, db)
      | some geom =>
          let p : SpatialPolygon := ⟨polygon_id, name, descr, geom⟩
          (Except.ok (some p),
           { db with polygons := db.polygons.map (fun q => if q.id == polygon_id then p else q) })

/-- `delete_polygon`. -/
def delete_polygon (db : DB) (polygon_id : Nat) : Option SpatialPolygon × DB :=
  match get_polygon db polygon_id with
  | none => (none, db)
  | some p => (some p, { db with polygons := db.polygons.filter (fun q => q.id != polygon_id) })

/-- `point_to_schema`. -/
def point_to_schema (p : SpatialPoint) : PointOut :=
  ⟨p.id, p.name, p.description, encodeGeom p.location⟩

/-- `polygon_to_schema`. -/
def polygon_to_schema (p : SpatialPolygon) : PolygonOut :=
  ⟨p.id, p.name, p.description, encodeGeom p.area⟩

/-- `points_within_polygon`: invalid GeoJSON → HTTP 422; otherwise a single
filtered SELECT (read-only, all matches, no pagination). -/
def points_within_polygon (db : DB) (polygon_geojson : GeoObj) :
    Except Nat (List SpatialPoint) × DB :=
  match shapeDecode polygon_geojson with
  | none => (Except.error 422, db)
  | some poly => (Except.ok (db.points.filter (fun p => ST_Within p.location poly)), db)

/-- `polygons_containing_point`. -/
def polygons_containing_point (db : DB) (point_geojson : GeoObj) :
    Except Nat (List SpatialPolygon) × DB :=
  match shapeDecode point_geojson with
  | none => (Except.error 422, db)
  | some pt => (Except.ok (db.polygons.filter (fun p => ST_Contains p.area pt)), db)

/-- `points_nearby`: the code comment promises meters via a geography cast,
but the query filters with `ST_DWithin` directly on the GEOMETRY column. -/
def points_nearby (db : DB) (point_geojson : GeoObj) (radius : ℚ) :
    Except Nat (List SpatialPoint) × DB :=
  match shapeDecode point_geojson with
  | none => (Except.error 422, db)
  | some pt => (Except.ok (db.points.filter (fun p => ST_DWithin p.location pt radius)), db)

end app

namespace app

/-- `main.get_current_user`, the FastAPI dependency on every protected
endpoint: requires a bearer token (`none` models a missing or non-bearer
Authorization header, which the oauth2 scheme rejects), decodes it against
the process secret, requires a `sub` claim, and requires that user to
exist; every failure raises the 401 `credentials_exception`. -/
def get_current_user (db : DB) (secret : String) (now : Int) (token : Option Jwt) :
    Option User :=
  match token with
  | none => none
  | some t =>
      match jwt_decode t secret now with
      | none => none
      | some none => none
      | some (some username) => get_user_by_username db username

/-- The protected operations of the resource surface: one constructor per
endpoint/verb pair (register and login are the only unprotected routes and
are modelled by `create_user` / `authenticate_user` directly). -/
inductive RestOp where
  | createPoint (name : String) (descr : Option String) (location : GeoObj)
  | listPoints (skip limit : Nat)
  | getPointById (id : Nat)
  | updatePointById (id : Nat) (name : String) (descr : Option String) (location : GeoObj)
  | deletePointById (id : Nat)
  | createPolygon (name : String) (descr : Option String) (area : GeoObj)
  | listPolygons (skip limit : Nat)
  | getPolygonById (id : Nat)
  | updatePolygonById (id : Nat) (name : String) (descr : Option String) (area : GeoObj)
  | deletePolygonById (id : Nat)
  | pointsWithinPolygonQ (polygon : GeoObj)
  | polygonsContainingPointQ (point : GeoObj)
  | pointsNearbyQ (point : GeoObj) (radius : ℚ)

/-- A successful REST response body. -/
inductive RestValue where
  | pointOut (p : PointOut)
  | pointsOut (ps : List PointOut)
  | polygonOut (p : PolygonOut)
  | polygonsOut (ps : List PolygonOut)
deriving DecidableEq

/-- The protected endpoints of `main.py`: FastAPI resolves the
`get_current_user` dependency before the handler body runs, so an invalid
token yields 401 without reaching any repository call; the handler bodies
then translate line for line (missing record → 404, crud errors
propagate). -/
def handleRest (db : DB) (secret : String) (now : Int) (token : Option Jwt)
    (op : RestOp) : Except Nat RestValue × DB :=
  match get_current_user db secret now token with
  | none => (Except.error 401, db)
  | some _user =>
    match op with
    | RestOp.createPoint n d loc =>
        match create_point db n d loc with
        | (Except.error c, db') => (Except.error c, db')
        | (Except.ok p, db') => (Except.ok (RestValue.pointOut (point_to_schema p)), db')
    | RestOp.listPoints skip limit =>
        (Except.ok (RestValue.pointsOut ((get_points db skip limit).map point_to_schema)), db)
    | RestOp.getPointById i =>
        match get_point db i with
        | none => (Except.error 404, db)
        | some p => (Except.ok (RestValue.pointOut (point_to_schema p)), db)
    | RestOp.updatePointById i n d loc =>
        match update_point db i n d loc with
        | (Except.error c, db') => (Except.error c, db')
        | (Except.ok none, db') => (Except.error 404, db')
        | (Except.ok (some p), db') => (Except.ok (RestValue.pointOut (point_to_schema p)), db')
    | RestOp.deletePointById i =>
        match delete_point db i with
        | (none, db') => (Except.error 404, db')
        | (some p, db') => (Except.ok (RestValue.pointOut (point_to_schema p)), db')
    | RestOp.createPolygon n d a =>
        match create_polygon db n d a with
        | (Except.error c, db') => (Except.error c, db')
        | (Except.ok p, db') => (Except.ok (RestValue.polygonOut (polygon_to_schema p)), db')
    | RestOp.listPolygons skip limit =>
        (Except.ok (RestValue.polygonsOut ((get_polygons db skip limit).map polygon_to_schema)),
         db)
    | RestOp.getPolygonById i =>
        match get_polygon db i with
        | none => (Except.error 404, db)
        | some p => (Except.ok (RestValue.polygonOut (polygon_to_schema p)), db)
    | RestOp.updatePolygonById i n d a =>
        match update_polygon db i n d a with
        | (Except.error c, db') => (Except.error c, db')
        | (Except.ok none, db') => (Except.error 404, db')
        | (Except.ok (some p), db') =>
            (Except.ok (RestValue.polygonOut (polygon_to_schema p)), db')
    | RestOp.deletePolygonById i =>
        match delete_polygon db i with
        | (none, db') => (Except.error 404, db')
        | (some p, db') => (Except.ok (RestValue.polygonOut (polygon_to_schema p)), db')
    | RestOp.pointsWithinPolygonQ g =>
        match points_within_polygon db g with
        | (Except.error c, db') => (Except.error c, db')
        | (Except.ok ps, db') => (Except.ok (RestValue.pointsOut (ps.map point_to_schema)), db')
    | RestOp.polygonsContainingPointQ g =>
        match polygons_containing_point db g with
        | (Except.error c, db') => (Except.error c, db')
        | (Except.ok ps, db') =>
            (Except.ok (RestValue.polygonsOut (ps.map polygon_to_schema)), db')
    | RestOp.pointsNearbyQ g r =>
        match points_nearby db g r with
        | (Except.error c, db') => (Except.error c, db')
        | (Except.ok ps, db') => (Except.ok (RestValue.pointsOut (ps.map point_to_schema)), db')

end app

/-! ## Graph-query surface (`graphql_app/crud.py` + `graphql_app/schema.py`)

Same repository logic, but failures surface as `None` / `[]` / `False`
instead of raised HTTP errors. -/

namespace gql

/-- `get_user_by_username`. -/
def get_user_by_username (db : DB) (username : String) : Option User :=
  db.users.find? (fun u => u.username == username)

/-- `create_user`: duplicate username → `IntegrityError` → rollback →
`None`. -/
def create_user (db : DB) (username password : String) : Option User × DB :=
  if db.users.any (fun u => u.username == username) then
    (none, db)
  else
    let u : User := ⟨db.nextUserId, username, get_password_hash password⟩
    (some u, { db with users := db.users ++ [u], nextUserId := db.nextUserId + 1 })

/-- `authenticate_user`. -/
def authenticate_user (db : DB) (username password : String) : Option User :=
  match get_user_by_username db username with
  | none => none
  | some u => if verify_password password u.hashed_password then some u else none

/-- `create_point`: invalid GeoJSON → `None` (no write). -/
def create_point (db : DB) (name : String) (descr : Option String) (location : GeoObj) :
    Option SpatialPoint × DB :=
  match shapeDecode location with
  | none => (none, db)
  | some geom =>
      let p : SpatialPoint := ⟨db.nextPointId, name, descr, geom⟩
      (some p, { db with points := db.points ++ [p], nextPointId := db.nextPointId + 1 })

/-- `get_point`. -/
def get_point (db : DB) (point_id : Nat) : Option SpatialPoint :=
  db.points.find? (fun p => p.id == point_id)

/-- `get_points`: no offset, no limit — every row. -/
def get_points (db : DB) : List SpatialPoint :=
  db.points

/-- `update_point`: missing id → `None` unchanged; invalid geometry on an
existing record → rollback (net effect nothing) and `None`. -/
def update_point (db : DB) (point_id : Nat) (name : String) (descr : Option String)
    (location : GeoObj) : Option SpatialPoint × DB :=
  match get_point db point_id with
  | none => (none, db)
  | some _ =>
      match shapeDecode location with
      | none => (none, db)
      | some geom =>
          let p : SpatialPoint := ⟨point_id, name, descr, geom⟩
          (some p, { db with points := db.points.map (fun q => if q.id == point_id then p else q) })

/-- `delete_point`: returns whether a row was deleted. -/
def delete_point (db : DB) (point_id : Nat) : Bool × DB :=
  match get_point db point_id with
  | none => (false, db)
  | some _ => (true, { db with points := db.points.filter (fun q => q.id != point_id) })

/-- `create_polygon`. -/
def create_polygon (db : DB) (name : String) (descr : Option String) (area : GeoObj) :
    Option SpatialPolygon × DB :=
  match shapeDecode area with
  | none => (none, db)
  | some geom =>
      let p : SpatialPolygon := ⟨db.nextPolygonId, name, descr, geom⟩
      (some p, { db with polygons := db.polygons ++ [p], nextPolygonId := db.nextPolygonId + 1 })

/-- `get_polygon`. -/
def get_polygon (db : DB) (polygon_id : Nat) : Option SpatialPolygon :=
  db.polygons.find? (fun p => p.id == polygon_id)

/-- `get_polygons`. -/
def get_polygons (db : DB) : List SpatialPolygon :=
  db.polygons

/-- `update_polygon`. -/
def update_polygon (db : DB) (polygon_id : Nat) (name : String) (descr : Option String)
    (area : GeoObj) : Option SpatialPolygon × DB :=
  match get_polygon db polygon_id with
  | none => (none, db)
  | some _ =>
      match shapeDecode area with
      | none => (none, db)
      | some geom =>
          let p : SpatialPolygon := ⟨polygon_id, name, descr, geom⟩
          (some p,
           { db with polygons := db.polygons.map (fun q => if q.id == polygon_id then p else q) })

/-- `delete_polygon`. -/
def delete_polygon (db : DB) (polygon_id : Nat) : Bool × DB :=
  match get_polygon db polygon_id with
  | none => (false, db)
  | some _ => (true, { db with polygons := db.polygons.filter (fun q => q.id != polygon_id) })

/-- `points_within_polygon`: an input that fails to decode returns the
EMPTY LIST — an ordinary success value, not an error. -/
def points_within_polygon (db : DB) (polygon_geojson : GeoObj) :
    List SpatialPoint × DB :=
  match shapeDecode polygon_geojson with
  | none => ([], db)
  | some poly => (db.points.filter (fun p => ST_Within p.location poly), db)

/-- `polygons_containing_point`. -/
def polygons_containing_point (db : DB) (point_geojson : GeoObj) :
    List SpatialPolygon × DB :=
  match shapeDecode point_geojson with
  | none => ([], db)
  | some pt => (db.polygons.filter (fun p => ST_Contains p.area pt), db)

/-- `points_nearby`. -/
def points_nearby (db : DB) (point_geojson : GeoObj) (radius : ℚ) :
    List SpatialPoint × DB :=
  match shapeDecode point_geojson with
  | none => ([], db)
  | some pt => (db.points.filter (fun p => ST_DWithin p.location pt radius), db)

/-- `point_to_dict`. -/
def point_to_dict (p : SpatialPoint) : PointOut :=
  ⟨p.id, p.name, p.description, encodeGeom p.location⟩

/-- `polygon_to_dict`. -/
def polygon_to_dict (p : SpatialPolygon) : PolygonOut :=
  ⟨p.id, p.name, p.description, encodeGeom p.area⟩

/-- `schema.get_current_user`: the resolver-level helper that inspects the
Authorization header; defined exactly as in the source — but note that no
mutation resolver ever calls it. -/
def get_current_user (db : DB) (secret : String) (now : Int) (auth : Option Jwt) :
    Option User :=
  match auth with
  | none => none
  | some t =>
      match jwt_decode t secret now with
      | none => none
      | some none => none
      | some (some username) =>
          match get_user_by_username db username with
          | some u => some u
          | none => none

/-- The mutation fields of the graph schema; `auth` is the bearer token of
the request (available to every resolver through `info.context`). -/
inductive GqlMutation where
  | register (username password : String)
  | login (username password : String)
  | createPoint (name : String) (descr : Option String) (location : GeoObj)
  | updatePoint (id : Nat) (name : String) (descr : Option String) (location : GeoObj)
  | deletePoint (id : Nat)
  | createPolygon (name : String) (descr : Option String) (area : GeoObj)
  | updatePolygon (id : Nat) (name : String) (descr : Option String) (area : GeoObj)
  | deletePolygon (id : Nat)

/-- A mutation field's result value. -/
inductive GqlResult where
  | boolRes (b : Bool)
  | tokenRes (t : Option Jwt)
  | pointRes (p : Option PointOut)
  | polygonRes (p : Option PolygonOut)
deriving DecidableEq

/-- The `Mutation` resolvers of `schema.py`, translated body for body.
Each write resolver goes straight to the crud layer; none of them consults
`auth` (no call to `get_current_user` appears in any mutation resolver). -/
def mutate (db : DB) (secret : String) (now : Int) (auth : Option Jwt)
    (m : GqlMutation) : GqlResult × DB :=
  match m with
  | GqlMutation.register u p =>
      match create_user db u p with
      | (r, db') => (GqlResult.boolRes r.isSome, db')
  | GqlMutation.login u p =>
      match authenticate_user db u p with
      | none => (GqlResult.tokenRes none, db)
      | some user =>
          (GqlResult.tokenRes (some (create_access_token secret now user.username)), db)
  | GqlMutation.createPoint n d loc =>
      match create_point db n d loc with
      | (r, db') => (GqlResult.pointRes (r.map point_to_dict), db')
  | GqlMutation.updatePoint i n d loc =>
      match update_point db i n d loc with
      | (r, db') => (GqlResult.pointRes (r.map point_to_dict), db')
  | GqlMutation.deletePoint i =>
      match delete_point db i with
      | (r, db') => (GqlResult.boolRes r, db')
  | GqlMutation.createPolygon n d a =>
      match create_polygon db n d a with
      | (r, db') => (GqlResult.polygonRes (r.map polygon_to_dict), db')
  | GqlMutation.updatePolygon i n d a =>
      match update_polygon db i n d a with
      | (r, db') => (GqlResult.polygonRes (r.map polygon_to_dict), db')
  | GqlMutation.deletePolygon i =>
      match delete_polygon db i with
      | (r, db') => (GqlResult.boolRes r, db')

end gql

/-! ## Auxiliary definitions and concrete fixtures used by the theorems -/

/-- Number of stored user records carrying a given username. -/
def usernameCount (db : DB) (u : String) : Nat :=
  (db.users.filter (fun x => x.username == u)).length

/-- Modelled from the spec: geodesic (great-circle) distance in meters
between two points that lie on the equator — `|Δlongitude|` degrees times
111319 m per degree (WGS84 equatorial circumference 40075017 m / 360°). -/
def geodesicEquatorMeters (lon1 lon2 : ℚ) : ℚ :=
  |lon2 - lon1| * 111319

/-- An empty store. -/
def db0 : DB := ⟨[], [], [], 0, 0, 0⟩

/-- A GeoJSON object of a type the codec rejects. -/
def gBad : GeoObj := ⟨"Banana", JVal.num 0⟩

/-- A valid GeoJSON point at the origin. -/
def qPt : GeoObj := ⟨"Point", JVal.lst [JVal.num 0, JVal.num 0]⟩

/-- A valid GeoJSON unit-triangle polygon (closed ring, 4 positions). -/
def sqPoly : GeoObj :=
  ⟨"Polygon", JVal.lst [JVal.lst [JVal.lst [JVal.num 0, JVal.num 0],
    JVal.lst [JVal.num 1, JVal.num 0], JVal.lst [JVal.num 1, JVal.num 1],
    JVal.lst [JVal.num 0, JVal.num 0]]]⟩

/-- A stored point half a degree of longitude east of the origin, on the
equator. -/
def nearP : SpatialPoint := ⟨1, "p", none, Geom.point [1/2, 0]⟩

/-- Store holding only `nearP`. -/
def dbC1 : DB := ⟨[], [nearP], [], 0, 2, 0⟩

/-- A store holding 101 point records. -/
def bigDB : DB :=
  ⟨[], (List.range 101).map (fun i => ⟨i, "p", none, Geom.point [0, 0]⟩), [], 0, 101, 0⟩

/-! ## Claim theorems -/

/-- C9 counterexample: with an empty process environment the signing key
silently becomes the hardcoded default "supersecretkey", refuting the
claim that no hardcoded fallback exists. -/
theorem secret_key_hardcoded_fallback : SECRET_KEY [] = "supersecretkey" := rfl

/-- C9 (amended): the signing secret is read from the SECRET_KEY
environment variable when present; when it is absent the code silently
falls back to the hardcoded default "supersecretkey". -/
theorem secret_key_env_or_default (env : List (String × String)) :
    (getenv env "SECRET_KEY" = none → SECRET_KEY env = "supersecretkey") ∧
    ∀ s, getenv env "SECRET_KEY" = some s → SECRET_KEY env = s := by
  constructor
  · intro h; simp [SECRET_KEY, h]
  · intro s h; simp [SECRET_KEY, h]

/-- C9 witness: a present variable is used verbatim; an absent one yields
the hardcoded default. -/
theorem secret_key_env_or_default_holds :
    SECRET_KEY [("SECRET_KEY", "k")] = "k" ∧ SECRET_KEY [] = "supersecretkey" :=
  ⟨(secret_key_env_or_default [("SECRET_KEY", "k")]).2 "k" rfl,
   (secret_key_env_or_default []).1 rfl⟩

/-- C2: every graph-surface mutation resolver (register, login and all six
point/polygon writes) executes identically for any two Authorization
states — no mutation consults the bearer token, so its effect on the store
and its result do not depend on the token's presence or validity. -/
theorem gql_mutations_ignore_auth (db : DB) (secret : String) (now : Int)
    (a1 a2 : Option Jwt) (m : gql.GqlMutation) :
    gql.mutate db secret now a1 m = gql.mutate db secret now a2 m := rfl

/-- C4: on the resource surface, any protected operation (all point and
polygon CRUD and the three predicate queries) invoked with a missing
token, a token signed with the wrong key, an expired token, a token
without a subject, or a subject that matches no user, answers 401 and
leaves the store exactly as it was — the repository operation behind the
endpoint is never reached. -/
theorem rest_auth_gate (db : DB) (secret : String) (now : Int) (token : Option Jwt)
    (op : app.RestOp)
    (h : token = none ∨ ∃ t, token = some t ∧
        (t.key ≠ secret ∨ t.exp ≤ now ∨ t.sub = none ∨
          ∀ u, t.sub = some u → app.get_user_by_username db u = none)) :
    app.handleRest db secret now token op = (Except.error 401, db) := by
  have hnone : app.get_current_user db secret now token = none := by
    rcases h with rfl | ⟨t, rfl, hc⟩
    · rfl
    · simp only [app.get_current_user, jwt_decode]
      rcases hc with hk | he | hs | hu
      · rw [if_neg (fun hand => hk hand.1)]
      · rw [if_neg (fun hand => absurd hand.2 (not_lt.mpr he))]
      · rw [hs]
        by_cases hcnd : t.key = secret ∧ now < t.exp
        · rw [if_pos hcnd]
        · rw [if_neg hcnd]
      · by_cases hcnd : t.key = secret ∧ now < t.exp
        · rw [if_pos hcnd]
          cases hsub : t.sub with
          | none => rfl
          | some u => exact hu u hsub
        · rw [if_neg hcnd]
  unfold app.handleRest
  rw [hnone]

/-- C4 witness: a request with no bearer token against the list endpoint
on an empty store. -/
theorem rest_auth_gate_holds :
    app.handleRest db0 "s" 0 none (app.RestOp.listPoints 0 100) = (Except.error 401, db0) :=
  rest_auth_gate db0 "s" 0 none (app.RestOp.listPoints 0 100) (Or.inl rfl)

/-- C7: starting from a store with no record of the username, the first
registration succeeds and yields exactly one record with that username;
the second attempt answers Conflict (HTTP 400 on the resource surface,
`None` on the graph surface), adds nothing, and leaves the first record's
store unchanged. -/
theorem duplicate_registration_conflict (db : DB) (u pw1 pw2 : String)
    (h : usernameCount db u = 0) :
    (app.create_user db u pw1).1 =
      Except.ok ⟨db.nextUserId, u, get_password_hash pw1⟩ ∧
    usernameCount (app.create_user db u pw1).2 u = 1 ∧
    app.create_user (app.create_user db u pw1).2 u pw2 =
      (Except.error 400, (app.create_user db u pw1).2) ∧
    gql.create_user (app.create_user db u pw1).2 u pw2 =
      (none, (app.create_user db u pw1).2) := by
  have hnil : db.users.filter (fun x => x.username == u) = [] :=
    List.length_eq_zero.mp h
  have hnotin : ∀ x ∈ db.users, ¬(x.username == u) = true := by
    intro x hx
    exact (List.filter_eq_nil_iff.mp hnil) x hx
  have hany : db.users.any (fun x => x.username == u) = false := by
    rw [List.any_eq_false]
    intro x hx
    simp only [Bool.not_eq_true]
    exact Bool.eq_false_iff.mpr (hnotin x hx)
  have hstep : app.create_user db u pw1 =
      (Except.ok ⟨db.nextUserId, u, get_password_hash pw1⟩,
       { db with users := db.users ++ [⟨db.nextUserId, u, get_password_hash pw1⟩],
                 nextUserId := db.nextUserId + 1 }) := by
    unfold app.create_user
    rw [hany]
    rfl
  have hany2 : (db.users ++ [(⟨db.nextUserId, u, get_password_hash pw1⟩ : User)]).any
      (fun x => x.username == u) = true := by
    rw [List.any_eq_true]
    refine ⟨⟨db.nextUserId, u, get_password_hash pw1⟩, ?_, ?_⟩
    · exact List.mem_append_right _ (List.mem_singleton.mpr rfl)
    · simp
  refine ⟨by rw [hstep], ?_, ?_, ?_⟩
  · rw [hstep]
    simp only [usernameCount, List.filter_append, hnil]
    simp
  · rw [hstep]
    unfold app.create_user
    rw [hany2]
    rfl
  · rw [hstep]
    unfold gql.create_user
    rw [hany2]
    rfl

/-- C7 witness: registering "apitestuser" twice on an empty store — the
second attempt returns HTTP 400 and leaves the store of the first
registration untouched. -/
theorem duplicate_registration_conflict_holds :
    app.create_user (app.create_user db0 "apitestuser" "apitestpass").2
        "apitestuser" "other" =
      (Except.error 400, (app.create_user db0 "apitestuser" "apitestpass").2) :=
  (duplicate_registration_conflict db0 "apitestuser" "apitestpass" "other" rfl).2.2.1

/-- C6: when the supplied geometry fails to decode, create adds no record
and update changes nothing, on both surfaces — the resource surface fails
with HTTP 422 (on update: when the record exists), the graph surface
returns `None`; in every case the returned store is exactly the input
store, so no partial write (for example a new name with the old geometry)
is ever observable. -/
theorem invalid_geometry_atomic (db : DB) (n : String) (d : Option String)
    (g : GeoObj) (i : Nat) (h : shapeDecode g = none) :
    app.create_point db n d g = (Except.error 422, db) ∧
    app.create_polygon db n d g = (Except.error 422, db) ∧
    gql.create_point db n d g = (none, db) ∧
    gql.create_polygon db n d g = (none, db) ∧
    (app.update_point db i n d g).2 = db ∧
    (app.update_polygon db i n d g).2 = db ∧
    (gql.update_point db i n d g).2 = db ∧
    (gql.update_polygon db i n d g).2 = db ∧
    (∀ p, app.get_point db i = some p →
      app.update_point db i n d g = (Except.error 422, db)) ∧
    (∀ p, app.get_polygon db i = some p →
      app.update_polygon db i n d g = (Except.error 422, db)) ∧
    (∀ p, gql.get_point db i = some p →
      gql.update_point db i n d g = (none, db)) ∧
    (∀ p, gql.get_polygon db i = some p →
      gql.update_polygon db i n d g = (none, db)) := by
  refine ⟨?_, ?_, ?_, ?_, ?_, ?_, ?_, ?_, ?_, ?_, ?_, ?_⟩
  · simp [app.create_point, h]
  · simp [app.create_polygon, h]
  · simp [gql.create_point, h]
  · simp [gql.create_polygon, h]
  · unfold app.update_point
    cases app.get_point db i
    · rfl
    · rw [h]
  · unfold app.update_polygon
    cases app.get_polygon db i
    · rfl
    · rw [h]
  · unfold gql.update_point
    cases gql.get_point db i
    · rfl
    · rw [h]
  · unfold gql.update_polygon
    cases gql.get_polygon db i
    · rfl
    · rw [h]
  · intro p hp
    unfold app.update_point
    rw [hp, h]
  · intro p hp
    unfold app.update_polygon
    rw [hp, h]
  · intro p hp
    unfold gql.update_point
    rw [hp, h]
  · intro p hp
    unfold gql.update_polygon
    rw [hp, h]

/-- C6 witness: creating a point from a rejected GeoJSON object on an
empty store fails with 422 and adds nothing. -/
theorem invalid_geometry_atomic_holds :
    app.create_point db0 "n" none gBad = (Except.error 422, db0) :=
  (invalid_geometry_atomic db0 "n" none gBad 0 rfl).1

/-- C10: on the graph surface, updatePoint and updatePolygon return null
both when the id matches no record and when the supplied geometry fails to
decode, so the caller cannot tell the two failures apart; in either case
the store is returned exactly as it was (the transaction is rolled
back). -/
theorem gql_update_null_indistinguishable (db : DB) (secret : String) (now : Int)
    (a : Option Jwt) (i : Nat) (n : String) (d : Option String) (g : GeoObj) :
    ((gql.get_point db i = none ∨ shapeDecode g = none) →
      gql.mutate db secret now a (gql.GqlMutation.updatePoint i n d g) =
        (gql.GqlResult.pointRes none, db)) ∧
    ((gql.get_polygon db i = none ∨ shapeDecode g = none) →
      gql.mutate db secret now a (gql.GqlMutation.updatePolygon i n d g) =
        (gql.GqlResult.polygonRes none, db)) := by
  constructor
  · intro h
    rcases h with h | h
    · simp [gql.mutate, gql.update_point, h]
    · cases hgp : gql.get_point db i <;>
        simp [gql.mutate, gql.update_point, hgp, h]
  · intro h
    rcases h with h | h
    · simp [gql.mutate, gql.update_polygon, h]
    · cases hgp : gql.get_polygon db i <;>
        simp [gql.mutate, gql.update_polygon, hgp, h]

/-- C10 witness: updating an id that does not exist in the empty store
returns null and leaves the store unchanged. -/
theorem gql_update_null_indistinguishable_holds :
    gql.mutate db0 "s" 0 none (gql.GqlMutation.updatePoint 5 "n" none qPt) =
      (gql.GqlResult.pointRes none, db0) :=
  (gql_update_null_indistinguishable db0 "s" 0 none 5 "n" none qPt).1 (Or.inl rfl)

/-- C5 counterexample: on the graph surface an input geometry that fails to
decode does NOT produce an InvalidGeometry error — all three predicate
queries answer with the ordinary success value `[]`, refuting the claim
that both surfaces fail with a 422-equivalent. -/
theorem gql_invalid_geometry_silent :
    shapeDecode gBad = none ∧
    gql.points_within_polygon db0 gBad = ([], db0) ∧
    gql.polygons_containing_point db0 gBad = ([], db0) ∧
    gql.points_nearby db0 gBad 5 = ([], db0) :=
  ⟨rfl, rfl, rfl, rfl⟩

/-- C5 (amended): on the resource surface an input geometry that fails to
decode makes each predicate query fail with HTTP 422 and a validly decoded
input yields a read-only success; on the graph surface an undecodable
input yields the empty list as an ordinary success, and a validly decoded
input is likewise read-only. -/
theorem predicate_query_error_handling (db : DB) (g : GeoObj) (r : ℚ) :
    (shapeDecode g = none →
      app.points_within_polygon db g = (Except.error 422, db) ∧
      app.polygons_containing_point db g = (Except.error 422, db) ∧
      app.points_nearby db g r = (Except.error 422, db) ∧
      gql.points_within_polygon db g = ([], db) ∧
      gql.polygons_containing_point db g = ([], db) ∧
      gql.points_nearby db g r = ([], db)) ∧
    (∀ geom, shapeDecode g = some geom →
      (∃ ps, app.points_within_polygon db g = (Except.ok ps, db)) ∧
      (∃ ps, app.polygons_containing_point db g = (Except.ok ps, db)) ∧
      (∃ ps, app.points_nearby db g r = (Except.ok ps, db)) ∧
      (gql.points_within_polygon db g).2 = db ∧
      (gql.polygons_containing_point db g).2 = db ∧
      (gql.points_nearby db g r).2 = db) := by
  constructor
  · intro h
    refine ⟨?_, ?_, ?_, ?_, ?_, ?_⟩ <;>
      simp [app.points_within_polygon, app.polygons_containing_point, app.points_nearby,
        gql.points_within_polygon, gql.polygons_containing_point, gql.points_nearby, h]
  · intro geom h
    refine ⟨⟨db.points.filter (fun p => ST_Within p.location geom), ?_⟩,
        ⟨db.polygons.filter (fun p => ST_Contains p.area geom), ?_⟩,
        ⟨db.points.filter (fun p => ST_DWithin p.location geom r), ?_⟩, ?_, ?_, ?_⟩ <;>
      simp [app.points_within_polygon, app.polygons_containing_point, app.points_nearby,
        gql.points_within_polygon, gql.polygons_containing_point, gql.points_nearby, h]

/-- C5 witness: an undecodable object fails 422 on the resource surface,
and a valid polygon query is read-only there. -/
theorem predicate_query_error_handling_holds :
    app.points_within_polygon db0 gBad = (Except.error 422, db0) ∧
    (gql.points_within_polygon db0 sqPoly).2 = db0 :=
  ⟨((predicate_query_error_handling db0 gBad 5).1 rfl).1,
   ((predicate_query_error_handling db0 sqPoly 5).2
      (Geom.polygon [[[0, 0], [1, 0], [1, 1], [0, 0]]]) rfl).2.2.2.1⟩

/-- C8 counterexample: `limit` is only a default, not a cap — with 101
stored points a client-supplied `limit` of 101 makes the list read return
101 records, more than the claimed maximum of 100. -/
theorem list_limit_uncapped :
    (app.get_points bigDB 0 101).length = 101 ∧ 100 < 101 := by
  constructor
  · rfl
  · decide

/-- C8 (amended): `list(offset, limit)` is the only paginated read — it
takes a nonnegative offset (`skip : Nat`) and applies `offset` and `limit`
exactly as supplied: records come only from the stored rows, an offset at
or past the end yields nothing, and the response never exceeds the
client-supplied `limit` — which defaults to 100 at the endpoint but is not
enforced as a cap; the three predicate queries apply no pagination and
return every match. -/
theorem list_pagination_behavior (db : DB) (skip limit : Nat) (g : GeoObj)
    (geom : Geom) (r : ℚ) (h : shapeDecode g = some geom) :
    (app.get_points db skip limit).length ≤ limit ∧
    (app.get_polygons db skip limit).length ≤ limit ∧
    (∀ p, p ∈ app.get_points db skip limit → p ∈ db.points) ∧
    (db.points.length ≤ skip → app.get_points db skip limit = []) ∧
    (∀ p, p ∈ (gql.points_within_polygon db g).1 ↔
      p ∈ db.points ∧ ST_Within p.location geom = true) ∧
    (∀ p, p ∈ (gql.points_nearby db g r).1 ↔
      p ∈ db.points ∧ ST_DWithin p.location geom r = true) ∧
    (∀ p, p ∈ (gql.polygons_containing_point db g).1 ↔
      p ∈ db.polygons ∧ ST_Contains p.area geom = true) ∧
    (∃ ps, app.points_within_polygon db g = (Except.ok ps, db) ∧
      ∀ p, p ∈ ps ↔ p ∈ db.points ∧ ST_Within p.location geom = true) := by
  refine ⟨?_, ?_, ?_, ?_, ?_, ?_, ?_, ?_⟩
  · exact List.length_take_le _ _
  · exact List.length_take_le _ _
  · intro p hp
    exact List.mem_of_mem_drop (List.mem_of_mem_take hp)
  · intro hskip
    unfold app.get_points
    rw [List.drop_eq_nil_of_le hskip, List.take_nil]
  · intro p
    simp [gql.points_within_polygon, h, List.mem_filter]
  · intro p
    simp [gql.points_nearby, h, List.mem_filter]
  · intro p
    simp [gql.polygons_containing_point, h, List.mem_filter]
  · refine ⟨db.points.filter (fun p => ST_Within p.location geom), ?_, ?_⟩
    · simp [app.points_within_polygon, h]
    · intro p
      simp [List.mem_filter]

/-- C8 witness: the uncapped list length bound and the all-matches
characterization at a concrete store and polygon. -/
theorem list_pagination_behavior_holds :
    (app.get_points bigDB 0 101).length ≤ 101 :=
  (list_pagination_behavior bigDB 0 101 sqPoly
    (Geom.polygon [[[0, 0], [1, 0], [1, 1], [0, 0]]]) 5 rfl).1

/-- C1: the nearby query filters with `ST_DWithin` on the SRID-4326
GEOMETRY column, which compares planar degree distance against the radius.
At the failing input — a point stored half a degree of longitude from the
query point on the equator, radius 10000 — the code returns the point
(0.5 degrees ≤ 10000), although its geodesic distance is about 55660
meters, far beyond the claimed 10000-meter radius, so under the claim's
meters interpretation it must be excluded. -/
theorem points_nearby_planar_not_geodesic :
    (app.points_nearby dbC1 qPt 10000).1 = Except.ok [nearP] ∧
    10000 < geodesicEquatorMeters 0 (1 / 2) := by
  constructor
  · have hd : shapeDecode qPt = some (Geom.point [0, 0]) := rfl
    have hw : ST_DWithin nearP.location (Geom.point [0, 0]) 10000 = true := by
      simp [ST_DWithin, nearP]
      norm_num
    simp [app.points_nearby, hd, dbC1, hw]
  · have habs : |(1 : ℚ) / 2 - 0| = 1 / 2 := by
      rw [abs_of_nonneg] <;> norm_num
    unfold geodesicEquatorMeters
    rw [habs]
    norm_num

/-- C3: encode ∘ decode at the failing input — a valid GeoJSON polygon.
`tuple_to_list` converts only the outermost tuple (its tuple branch
returns `list(obj)` without recursing into the elements), so the encoded
polygon keeps its ring and coordinate-pair tuples and is NOT structurally
equal to the input; a Point, whose coordinates are a single flat tuple,
does round-trip. -/
theorem polygon_round_trip_tuple_artifacts :
    (shapeDecode sqPoly).map encodeGeom =
      some ⟨"Polygon", JVal.lst [JVal.tup [JVal.tup [JVal.num 0, JVal.num 0],
        JVal.tup [JVal.num 1, JVal.num 0], JVal.tup [JVal.num 1, JVal.num 1],
        JVal.tup [JVal.num 0, JVal.num 0]]]⟩ ∧
    (shapeDecode sqPoly).map encodeGeom ≠ some sqPoly ∧
    (shapeDecode qPt).map encodeGeom = some qPt := by
  refine ⟨rfl, ?_, rfl⟩
  decide

end Spatial
